import Mathlib

/-!
Shallow embedding of the tweety-backend session/reaction consistency layer.

Auth layer (src/src/middleware/auth.js): JWTs are modelled symbolically as a
payload together with the secret they were signed with; `jwt.verify` succeeds
exactly when the secret matches and the embedded `exp` has not passed
(jsonwebtoken rejects when the clock reaches `exp`).  The `user_tokens` table
is a list of rows; `dbInstance.get` is `List.find?` on the queried columns.

Reaction layer (src/src/models/eventModel.js, src/db/schema.sql): the
`events` table is modelled by its list of ids, `event_likes` by a list of
rows; SQL statements become the corresponding list operations.

Cache layer (src/src/middleware/cache.js, src/src/routes/v1/poznan.js,
src/src/middleware/errorHandler.js): the `Map` is an association list with
JS `Map.set` semantics; one request through the cache middleware, the route
handler and the error handler is a single state-transition function.

Times are naturals (seconds for the auth layer, milliseconds for the cache),
ids and secrets are strings, reaction polarity is an `Int` (1 or -1).
-/

namespace Tweety

/-- JWT payload as built in `generateAndStoreToken`:
`{ sub: userId, jti: tokenId, iat: issuedAt, exp: expiresAt }`. -/
structure Payload where
  sub : String
  jti : String
  iat : Nat
  exp : Nat
deriving DecidableEq, Repr

/-- A signed JWT, modelled as its payload plus the secret used by `jwt.sign`.
Two tokens are equal exactly when payload and secret agree (HS256 signing is
deterministic). -/
structure Token where
  payload : Payload
  secret : String
deriving DecidableEq, Repr

/-- A row of the `user_tokens` table (src/db/schema.sql lines 11-18). -/
structure TokenRow where
  id : String
  user_id : String
  token : Token
  expires_at : Nat
  issued_at : Nat
deriving DecidableEq, Repr

/-- `TOKEN_EXPIRES_IN = 7 * 24 * 60 * 60` seconds (middleware/auth.js). -/
def TOKEN_EXPIRES_IN : Nat := 7 * 24 * 60 * 60

/-- `jwt.sign(payload, secret)`. -/
def jwtSign (p : Payload) (secret : String) : Token :=
  { payload := p, secret := secret }

/-- `jwt.verify(token, secret)` at clock time `now`: succeeds iff the
signature checks out (same secret) and `now < exp`; returns the payload. -/
def jwtVerify (t : Token) (secret : String) (now : Nat) : Option Payload :=
  if t.secret = secret ∧ now < t.payload.exp then some t.payload else none

/-- `generateAndStoreToken(userId, deviceInfo)` (middleware/auth.js lines
24-55): builds the payload with `iat = now`, `exp = now + TOKEN_EXPIRES_IN`,
signs it, and inserts a `user_tokens` row whose `expires_at`/`issued_at`
mirror the payload.  `tokenId` stands for the fresh `uuidv4()`. -/
def generateAndStoreToken (userId : String) (tokenId : String) (secret : String)
    (now : Nat) (ledger : List TokenRow) : Token × List TokenRow :=
  let issuedAt := now
  let expiresAt := issuedAt + TOKEN_EXPIRES_IN
  let payload : Payload := { sub := userId, jti := tokenId, iat := issuedAt, exp := expiresAt }
  let token := jwtSign payload secret
  (token,
   ledger ++ [{ id := tokenId, user_id := userId, token := token,
                expires_at := expiresAt, issued_at := issuedAt }])

/-- `SELECT user_id, expires_at FROM user_tokens WHERE id = ? AND token = ?`
(middleware/auth.js lines 83-87): first row matching both columns. -/
def getTokenRow (ledger : List TokenRow) (jti : String) (tok : Token) :
    Option TokenRow :=
  ledger.find? (fun r => r.id == jti && r.token == tok)

/-- Classified outcome of the Session Authenticator (the three 401 branches
of `authenticateJWT`, plus success carrying `payload.sub`). -/
inductive AuthOutcome where
  | missingCredential
  | invalidSignatureOrExpired
  | notRecognized
  | authenticated (userId : String)
deriving DecidableEq, Repr

/-- A read issued against the token ledger (the parameters of the `SELECT`
in `authenticateJWT`). -/
structure LedgerRead where
  jti : String
  token : Token
deriving DecidableEq, Repr

/-- `authenticateJWT` (middleware/auth.js lines 65-101).  The bearer header
is `none` when missing or malformed.  The second component records every
store read the call performed, in order. -/
def authenticateJWT (header : Option Token) (secret : String)
    (ledger : List TokenRow) (now : Nat) : AuthOutcome × List LedgerRead :=
  match header with
  | none => (.missingCredential, [])
  | some tok =>
    match jwtVerify tok secret now with
    | none => (.invalidSignatureOrExpired, [])
    | some payload =>
      match getTokenRow ledger payload.jti tok with
      | none => (.notRecognized, [{ jti := payload.jti, token := tok }])
      | some _ => (.authenticated payload.sub, [{ jti := payload.jti, token := tok }])

/-- `revokeToken(token)` (middleware/auth.js lines 108-114):
`DELETE FROM user_tokens WHERE token = ?`. -/
def revokeToken (ledger : List TokenRow) (tok : Token) : List TokenRow :=
  ledger.filter (fun r => !(r.token == tok))

/-- A row of the `event_likes` table (src/db/schema.sql lines 35-44). -/
structure ReactionRow where
  id : String
  event_id : String
  user_id : String
  reaction : Int
  created_at : Nat
deriving DecidableEq, Repr

/-- The part of the database the Reaction Ledger touches: the ids present in
the `events` table and the rows of `event_likes`. -/
structure EventsDB where
  events : List String
  event_likes : List ReactionRow
deriving DecidableEq, Repr

/-- Return shape of `likeOrDislikeEvent` (eventModel.js lines 141-145). -/
structure LikeDislikeResult where
  eventExists : Bool
  updated : Bool
deriving DecidableEq, Repr

/-- `SELECT id, reaction FROM event_likes WHERE event_id = ? AND user_id = ?`
(eventModel.js lines 167-171). -/
def findReaction (rows : List ReactionRow) (eventId userId : String) :
    Option ReactionRow :=
  rows.find? (fun r => r.event_id == eventId && r.user_id == userId)

/-- `likeOrDislikeEvent(eventId, userId, reaction)` (eventModel.js lines
154-197).  `newId` stands for the `uuidv4()` drawn for a fresh row, `now`
for `new Date().toISOString()`.  Returns the database after the call and the
`{ eventExists, updated }` result. -/
def likeOrDislikeEvent (st : EventsDB) (eventId userId : String)
    (reaction : Int) (newId : String) (now : Nat) :
    EventsDB × LikeDislikeResult :=
  if st.events.contains eventId then
    match findReaction st.event_likes eventId userId with
    | none =>
        ({ st with event_likes := st.event_likes ++
             [{ id := newId, event_id := eventId, user_id := userId,
                reaction := reaction, created_at := now }] },
         { eventExists := true, updated := false })
    | some existing =>
        if existing.reaction ≠ reaction then
          ({ st with event_likes := st.event_likes.map (fun r =>
               if r.id == existing.id then
                 { r with reaction := reaction, created_at := now }
               else r) },
           { eventExists := true, updated := true })
        else
          (st, { eventExists := true, updated := false })
  else
    (st, { eventExists := false, updated := false })

/-- Aggregate result of `getEventReactions` (eventModel.js lines 204-218). -/
structure ReactionCounts where
  likes : Nat
  dislikes : Nat
deriving DecidableEq, Repr

/-- `getEventReactions(eventId)` (eventModel.js lines 204-218):
`SUM(CASE WHEN reaction = 1 THEN 1 ELSE 0 END)` over the event's rows, and
likewise for `-1`; `row.likes || 0` makes the empty sum 0. -/
def getEventReactions (st : EventsDB) (eventId : String) : ReactionCounts :=
  let rows := st.event_likes.filter (fun r => r.event_id == eventId)
  { likes := rows.countP (fun r => r.reaction == 1),
    dislikes := rows.countP (fun r => r.reaction == (-1 : Int)) }

/-- One toggle call of the Reaction Ledger, with the fresh uuid and the
timestamp the call would draw. -/
structure ToggleCall where
  eventId : String
  userId : String
  reaction : Int
  newId : String
  now : Nat
deriving DecidableEq, Repr

/-- Sequential application of a list of toggle calls. -/
def applyToggles (st : EventsDB) : List ToggleCall → EventsDB
  | [] => st
  | c :: cs =>
      applyToggles (likeOrDislikeEvent st c.eventId c.userId c.reaction c.newId c.now).1 cs

/-- At most one `event_likes` row per (event_id, user_id) pair — the
`UNIQUE(event_id, user_id)` constraint of src/db/schema.sql line 43. -/
def atMostOnePerPair (rows : List ReactionRow) : Prop :=
  rows.Pairwise (fun a b => ¬(a.event_id = b.event_id ∧ a.user_id = b.user_id))

/-- A response body as the cached route produces it: either the mapped
upstream data (poznan.js lines 33-45) or the error handler's
`{ error: err.message }` object (errorHandler.js lines 24-38). -/
inductive Body (V : Type) where
  | data (v : V)
  | errorMsg (message : String)
deriving DecidableEq, Repr

/-- An entry of the cache `Map`: `{ expires, value }` (cache.js line 147). -/
structure CacheEntry (V : Type) where
  expires : Nat
  value : V
deriving DecidableEq, Repr

/-- The cache `Map`, as an association list in insertion order. -/
abbrev CacheMap (V : Type) : Type := List (String × CacheEntry V)

/-- `Map.prototype.get`. -/
def mapGet {V : Type} (m : CacheMap V) (k : String) : Option (CacheEntry V) :=
  (List.find? (fun p => p.1 == k) m).map Prod.snd

/-- `Map.prototype.set`: overwrite in place when present, append when not. -/
def mapSet {V : Type} (m : CacheMap V) (k : String) (e : CacheEntry V) :
    CacheMap V :=
  if List.any m (fun p => p.1 == k) then
    List.map (fun p => if p.1 = k then (k, e) else p) m
  else
    m ++ [(k, e)]

/-- `Map.prototype.delete`. -/
def mapDelete {V : Type} (m : CacheMap V) (k : String) : CacheMap V :=
  List.filter (fun p => !(p.1 == k)) m

/-- Outcome of the downstream computation of the cached route: the upstream
fetch-and-map either yields a value or throws with a message. -/
inductive ComputeResult (V : Type) where
  | ok (v : V)
  | fail (message : String)
deriving DecidableEq, Repr

/-- An HTTP response: status code and JSON body. -/
structure HttpResponse (V : Type) where
  status : Nat
  body : Body V
deriving DecidableEq, Repr

/-- What one request through the cached route leaves behind. -/
structure RequestOutcome (V : Type) where
  cache : CacheMap (Body V)
  response : HttpResponse V
  computeInvoked : Bool

/-- One request through `createCache(ttlMs)` (cache.js lines 125-153)
composed with the poznan handler (poznan.js lines 27-49) and `errorHandler`
(errorHandler.js lines 14-39), at clock time `now`.
* non-GET requests skip the middleware entirely;
* a live entry is served by the un-patched `res.json` (status 200), without
  running the handler;
* an expired entry is deleted, then the middleware patches `res.json` and
  calls the handler: a successful upstream call sends the mapped data with
  status 200, a failed one reaches `errorHandler`, which sends status 500
  with `{ error: message }` — in both cases through the patched `res.json`,
  which stores the body under `now + ttlMs`. -/
def cachedRequest {V : Type} (ttlMs : Nat) (cache : CacheMap (Body V))
    (key : String) (now : Nat) (method : String) (upstream : ComputeResult V) :
    RequestOutcome V :=
  let runHandler : CacheMap (Body V) → Bool → RequestOutcome V :=
    fun c patched =>
      match upstream with
      | .ok v =>
          { cache := if patched then mapSet c key { expires := now + ttlMs, value := Body.data v } else c,
            response := { status := 200, body := Body.data v },
            computeInvoked := true }
      | .fail msg =>
          { cache := if patched then mapSet c key { expires := now + ttlMs, value := Body.errorMsg msg } else c,
            response := { status := 500, body := Body.errorMsg msg },
            computeInvoked := true }
  if method ≠ "GET" then
    runHandler cache false
  else
    match mapGet cache key with
    | some entry =>
        if now < entry.expires then
          { cache := cache,
            response := { status := 200, body := entry.value },
            computeInvoked := false }
        else
          runHandler (mapDelete cache key) true
    | none => runHandler cache true

/-! ### List helper lemmas -/

/-- `find?` over an append whose first part has no match. -/
theorem find?_append_of_none {α : Type} (p : α → Bool) :
    ∀ l1 l2 : List α, List.find? p l1 = none →
      List.find? p (l1 ++ l2) = List.find? p l2
  | [], _, _ => rfl
  | a :: t, l2, h => by
      by_cases hpa : p a = true
      · rw [List.find?_cons_of_pos _ hpa] at h
        exact absurd h (by simp)
      · rw [List.find?_cons_of_neg _ hpa] at h
        rw [List.cons_append, List.find?_cons_of_neg _ hpa]
        exact find?_append_of_none p t l2 h

/-- Filtering by a predicate implied by the search predicate does not change
the result of `find?`. -/
theorem find?_filter_of_imp {α : Type} (p q : α → Bool)
    (h : ∀ x, p x = true → q x = true) :
    ∀ l : List α, List.find? p (List.filter q l) = List.find? p l
  | [] => rfl
  | a :: t => by
      by_cases hq : q a = true
      · rw [List.filter_cons_of_pos hq]
        by_cases hp : p a = true
        · rw [List.find?_cons_of_pos _ hp, List.find?_cons_of_pos _ hp]
        · rw [List.find?_cons_of_neg _ hp, List.find?_cons_of_neg _ hp]
          exact find?_filter_of_imp p q h t
      · have hp : ¬ p a = true := fun hpa => hq (h a hpa)
        rw [List.filter_cons_of_neg hq, List.find?_cons_of_neg _ hp]
        exact find?_filter_of_imp p q h t

/-- After a JS `Map.set`, `get` on the written key yields the new entry:
the overwrite-in-place branch. -/
theorem find?_map_set {V : Type} (k : String) (e : CacheEntry V) :
    ∀ m : CacheMap V, List.any m (fun p => p.1 == k) = true →
      List.find? (fun p => p.1 == k)
        (List.map (fun p => if p.1 = k then (k, e) else p) m) = some (k, e)
  | [], h => by simp at h
  | a :: t, h => by
      by_cases hab : a.1 = k
      · rw [List.map_cons, if_pos hab, List.find?_cons_of_pos _ (by simp)]
      · have hab' : ¬((a.1 == k) = true) := by simp [hab]
        have ht : List.any t (fun p => p.1 == k) = true := by
          rcases List.any_eq_true.mp h with ⟨x, hx, hpx⟩
          rcases List.mem_cons.mp hx with rfl | hxt
          · exact absurd hpx hab'
          · exact List.any_eq_true.mpr ⟨x, hxt, hpx⟩
        rw [List.map_cons, if_neg hab,
            @List.find?_cons_of_neg _ (fun p => p.1 == k) a _ hab']
        exact find?_map_set k e t ht

/-- After a JS `Map.set`, `get` on the written key yields the new entry. -/
theorem mapGet_mapSet_self {V : Type} (m : CacheMap V) (k : String)
    (e : CacheEntry V) : mapGet (mapSet m k e) k = some e := by
  unfold mapSet mapGet
  by_cases h : List.any m (fun p => p.1 == k)
  · rw [if_pos h, find?_map_set k e m h]
    rfl
  · rw [if_neg h]
    have hnone : List.find? (fun p => p.1 == k) m = none := by
      rw [List.find?_eq_none]
      intro x hx hpx
      exact h (List.any_of_mem hx hpx)
    rw [find?_append_of_none _ _ _ hnone, List.find?_cons_of_pos _ (by simp)]
    rfl

/-! ### Claim theorems -/

/-- C1: the reaction-toggle operation follows the specified algorithm: with
no reaction row for (eventId, userId) it inserts a row with the given
polarity and returns eventExists=true, updated=false; with a row of the
opposite polarity it updates that row in place (new polarity, refreshed
timestamp) and returns eventExists=true, updated=true; with a row of the
same polarity it performs no write and returns eventExists=true,
updated=false; and when the event does not exist it returns
eventExists=false, updated=false without writing. -/
theorem likeOrDislikeEvent_cases (st : EventsDB) (e u : String) (r : Int)
    (newId : String) (now : Nat) :
    (st.events.contains e = false →
      likeOrDislikeEvent st e u r newId now =
        (st, { eventExists := false, updated := false }))
    ∧ (st.events.contains e = true →
        ((findReaction st.event_likes e u = none →
          likeOrDislikeEvent st e u r newId now =
            ({ st with event_likes := st.event_likes ++
                 [{ id := newId, event_id := e, user_id := u,
                    reaction := r, created_at := now }] },
             { eventExists := true, updated := false }))
        ∧ (∀ ex : ReactionRow, findReaction st.event_likes e u = some ex →
            ex.reaction ≠ r →
            likeOrDislikeEvent st e u r newId now =
              ({ st with event_likes := st.event_likes.map (fun row =>
                   if row.id == ex.id then
                     { row with reaction := r, created_at := now }
                   else row) },
               { eventExists := true, updated := true }))
        ∧ (∀ ex : ReactionRow, findReaction st.event_likes e u = some ex →
            ex.reaction = r →
            likeOrDislikeEvent st e u r newId now =
              (st, { eventExists := true, updated := false })))) := by
  refine ⟨fun hc => ?_, fun hc => ⟨fun hf => ?_, fun ex hf hne => ?_, fun ex hf heq => ?_⟩⟩
  · have hc' : e ∉ st.events := by simpa using hc
    simp [likeOrDislikeEvent, hc']
  · have hc' : e ∈ st.events := by simpa using hc
    simp [likeOrDislikeEvent, hc', hf]
  · have hc' : e ∈ st.events := by simpa using hc
    simp [likeOrDislikeEvent, hc', hf, hne]
  · have hc' : e ∈ st.events := by simpa using hc
    simp [likeOrDislikeEvent, hc', hf, heq]

/-- Witness for C1 at four concrete inputs, one per branch. -/
theorem likeOrDislikeEvent_cases_witness :
    likeOrDislikeEvent { events := [], event_likes := [] } "e" "u" 1 "i" 0
      = ({ events := [], event_likes := [] },
         { eventExists := false, updated := false })
    ∧ likeOrDislikeEvent { events := ["e"], event_likes := [] } "e" "u" 1 "i" 0
      = ({ events := ["e"],
           event_likes := [{ id := "i", event_id := "e", user_id := "u",
                             reaction := 1, created_at := 0 }] },
         { eventExists := true, updated := false })
    ∧ likeOrDislikeEvent
        { events := ["e"],
          event_likes := [{ id := "r0", event_id := "e", user_id := "u",
                            reaction := 1, created_at := 0 }] }
        "e" "u" (-1) "i" 5
      = ({ events := ["e"],
           event_likes := [{ id := "r0", event_id := "e", user_id := "u",
                             reaction := -1, created_at := 5 }] },
         { eventExists := true, updated := true })
    ∧ likeOrDislikeEvent
        { events := ["e"],
          event_likes := [{ id := "r0", event_id := "e", user_id := "u",
                            reaction := 1, created_at := 0 }] }
        "e" "u" 1 "i" 5
      = ({ events := ["e"],
           event_likes := [{ id := "r0", event_id := "e", user_id := "u",
                             reaction := 1, created_at := 0 }] },
         { eventExists := true, updated := false }) :=
  ⟨(likeOrDislikeEvent_cases { events := [], event_likes := [] } "e" "u" 1 "i" 0).1
      (by decide),
   ((likeOrDislikeEvent_cases { events := ["e"], event_likes := [] } "e" "u" 1 "i" 0).2
      (by decide)).1 (by decide),
   (((likeOrDislikeEvent_cases
        { events := ["e"],
          event_likes := [{ id := "r0", event_id := "e", user_id := "u",
                            reaction := 1, created_at := 0 }] }
        "e" "u" (-1) "i" 5).2 (by decide)).2.1
      { id := "r0", event_id := "e", user_id := "u", reaction := 1, created_at := 0 }
      (by decide) (by decide)),
   (((likeOrDislikeEvent_cases
        { events := ["e"],
          event_likes := [{ id := "r0", event_id := "e", user_id := "u",
                            reaction := 1, created_at := 0 }] }
        "e" "u" 1 "i" 5).2 (by decide)).2.2
      { id := "r0", event_id := "e", user_id := "u", reaction := 1, created_at := 0 }
      (by decide) (by decide))⟩

/-- One toggle call preserves the at-most-one-reaction-per-pair invariant:
the insert branch only fires when the lookup found no row for the pair, and
the update branch rewrites polarity and timestamp of existing rows only. -/
theorem atMostOnePerPair_step (st : EventsDB) (c : ToggleCall)
    (h : atMostOnePerPair st.event_likes) :
    atMostOnePerPair
      (likeOrDislikeEvent st c.eventId c.userId c.reaction c.newId c.now).1.event_likes := by
  unfold likeOrDislikeEvent
  by_cases hc : st.events.contains c.eventId
  · rw [if_pos hc]
    cases hf : findReaction st.event_likes c.eventId c.userId with
    | none =>
        have hnone : ∀ row ∈ st.event_likes,
            ¬(row.event_id = c.eventId ∧ row.user_id = c.userId) := by
          intro row hrow hpair
          have := List.find?_eq_none.mp hf row hrow
          simp [hpair.1, hpair.2] at this
        simp only [atMostOnePerPair] at h ⊢
        rw [List.pairwise_append]
        refine ⟨h, List.pairwise_singleton _ _, ?_⟩
        intro a ha b hb hpair
        have hb' : b = { id := c.newId, event_id := c.eventId, user_id := c.userId,
                         reaction := c.reaction, created_at := c.now } := by
          simpa using hb
        exact hnone a ha ⟨by simpa [hb'] using hpair.1, by simpa [hb'] using hpair.2⟩
    | some ex =>
        by_cases hne : ex.reaction = c.reaction
        · simp [hf, hne, h]
        · simp only [hf]
          rw [if_pos hne]
          simp only [atMostOnePerPair] at h ⊢
          rw [List.pairwise_map]
          refine h.imp ?_
          intro a b hab hpair
          apply hab
          constructor
          · by_cases ha : a.id = ex.id <;> by_cases hb : b.id = ex.id <;>
              simpa [ha, hb] using hpair.1
          · by_cases ha : a.id = ex.id <;> by_cases hb : b.id = ex.id <;>
              simpa [ha, hb] using hpair.2
  · rw [if_neg hc]
    exact h

/-- C2: for every sequence of toggle calls, the reaction store never holds
more than one row per (eventId, userId) pair: the invariant of
`UNIQUE(event_id, user_id)` is preserved by every toggle, hence by every
sequence of Reaction Ledger operations (the count queries do not write). -/
theorem atMostOnePerPair_preserved (st : EventsDB) (calls : List ToggleCall)
    (h : atMostOnePerPair st.event_likes) :
    atMostOnePerPair (applyToggles st calls).event_likes := by
  induction calls generalizing st with
  | nil => exact h
  | cons c cs ih =>
      exact ih _ (atMostOnePerPair_step st c h)

/-- Witness for C2: a like, a flip and a repeat by one user plus a like by
another user, starting from an empty store. -/
theorem atMostOnePerPair_preserved_witness :
    atMostOnePerPair
      (applyToggles { events := ["e"], event_likes := [] }
        [{ eventId := "e", userId := "u", reaction := 1, newId := "i1", now := 0 },
         { eventId := "e", userId := "u", reaction := -1, newId := "i2", now := 1 },
         { eventId := "e", userId := "u", reaction := -1, newId := "i3", now := 2 },
         { eventId := "e", userId := "w", reaction := 1, newId := "i4", now := 3 }]).event_likes :=
  atMostOnePerPair_preserved
    { events := ["e"], event_likes := [] } _ (List.Pairwise.nil)

/-- Counterexample for C3: the authenticator never compares the stored
`expires_at` column (it selects it and ignores it), so a ledger state
holding a row whose stored `expires_at` (5) is in the past (now = 100) but
whose token carries a still-future embedded `exp` (1000000) is accepted,
not rejected. -/
theorem authenticateJWT_ignores_stored_expiry_cex :
    (5 : Nat) < 100
    ∧ (authenticateJWT
        (some { payload := { sub := "u1", jti := "jti1", iat := 0, exp := 1000000 },
                secret := "s" })
        "s"
        [{ id := "jti1", user_id := "u1",
           token := { payload := { sub := "u1", jti := "jti1", iat := 0, exp := 1000000 },
                      secret := "s" },
           expires_at := 5, issued_at := 0 }]
        100).1
      = .authenticated "u1" := by
  exact ⟨by norm_num, by decide⟩

/-- C3 (amended): for rows as issuance creates them — stored `expires_at`
equal to the token's embedded `exp` — a credential resolving to a row whose
`expires_at` has passed is rejected, classified invalidSignatureOrExpired by
the pre-ledger `jwt.verify` expiry check, with no store read; the stored
`expires_at` itself is fetched but never compared. -/
theorem authenticateJWT_rejects_expired_consistent
    (st led : List TokenRow) (row : TokenRow) (secret uid tid sec2 : String)
    (now t : Nat)
    (hmem : row ∈ st)
    (hcons : row.token.payload.exp = row.expires_at)
    (hexp : row.expires_at ≤ now) :
    authenticateJWT (some row.token) secret st now = (.invalidSignatureOrExpired, [])
    ∧ ∀ r ∈ (generateAndStoreToken uid tid sec2 t led).2,
        r ∈ led ∨ r.token.payload.exp = r.expires_at := by
  constructor
  · have hver : jwtVerify row.token secret now = none := by
      unfold jwtVerify
      rw [if_neg]
      rintro ⟨-, h2⟩
      rw [hcons] at h2
      omega
    simp [authenticateJWT, hver]
  · intro r hr
    unfold generateAndStoreToken at hr
    rcases List.mem_append.mp hr with hl | hnew
    · exact Or.inl hl
    · right
      have : r = { id := tid, user_id := uid,
                   token := jwtSign { sub := uid, jti := tid, iat := t,
                                      exp := t + TOKEN_EXPIRES_IN } sec2,
                   expires_at := t + TOKEN_EXPIRES_IN, issued_at := t } := by
        simpa using hnew
      rw [this]
      rfl

/-- Witness for C3 (amended) at a concrete expired, issuance-consistent
row. -/
theorem authenticateJWT_rejects_expired_consistent_witness :
    authenticateJWT
        (some { payload := { sub := "u1", jti := "jti1", iat := 0, exp := 5 },
                secret := "s" })
        "s"
        [{ id := "jti1", user_id := "u1",
           token := { payload := { sub := "u1", jti := "jti1", iat := 0, exp := 5 },
                      secret := "s" },
           expires_at := 5, issued_at := 0 }]
        100
      = (.invalidSignatureOrExpired, [])
    ∧ ∀ r ∈ (generateAndStoreToken "u2" "jti2" "s" 7 []).2,
        r ∈ ([] : List TokenRow) ∨ r.token.payload.exp = r.expires_at :=
  authenticateJWT_rejects_expired_consistent
    [{ id := "jti1", user_id := "u1",
       token := { payload := { sub := "u1", jti := "jti1", iat := 0, exp := 5 },
                  secret := "s" },
       expires_at := 5, issued_at := 0 }]
    []
    { id := "jti1", user_id := "u1",
      token := { payload := { sub := "u1", jti := "jti1", iat := 0, exp := 5 },
                 secret := "s" },
      expires_at := 5, issued_at := 0 }
    "s" "u2" "jti2" "s" 100 7
    (by decide) (by decide) (by decide)

/-- C4 (code bug): the cache middleware patches `res.json` before calling
the handler, so when the upstream compute fails the error handler's
`{ error: message }` body goes through the patched `res.json` and IS stored
under the key.  At the failing input — empty cache, a GET at t = 0 whose
compute fails, then a GET for the same key at t = 1000 with a healthy
compute — the first response is a 500 whose body is cached with expiry
`0 + ttl`, and the second request is served that error body from the cache
with status 200, without re-invoking compute. -/
theorem cache_stores_error_response_bug :
    (cachedRequest (V := Nat) 300000 [] "/v1/poznan" 0 "GET"
        (.fail "upstream down")).response
      = { status := 500, body := Body.errorMsg "upstream down" }
    ∧ (cachedRequest (V := Nat) 300000 [] "/v1/poznan" 0 "GET"
        (.fail "upstream down")).cache
      = [("/v1/poznan", { expires := 300000, value := Body.errorMsg "upstream down" })]
    ∧ (cachedRequest (V := Nat) 300000
        (cachedRequest (V := Nat) 300000 [] "/v1/poznan" 0 "GET"
          (.fail "upstream down")).cache
        "/v1/poznan" 1000 "GET" (.ok 42)).computeInvoked = false
    ∧ (cachedRequest (V := Nat) 300000
        (cachedRequest (V := Nat) 300000 [] "/v1/poznan" 0 "GET"
          (.fail "upstream down")).cache
        "/v1/poznan" 1000 "GET" (.ok 42)).response
      = { status := 200, body := Body.errorMsg "upstream down" } := by
  refine ⟨by decide, by decide, by decide, by decide⟩

/-- C5: after `revoke(token)`, the validity lookup for that token finds no
row whatever `jti` is queried; a subsequent authentication attempt with the
(still cryptographically valid) token is classified notRecognized — the
authenticator reads the ledger state as it is at that moment, so revocation
is immediate; and revoking a token with no matching rows leaves the ledger
unchanged (idempotent, not an error). -/
theorem revocation_immediate (st : List TokenRow) (tok : Token) (jti : String)
    (secret : String) (now : Nat)
    (hver : jwtVerify tok secret now = some tok.payload) :
    getTokenRow (revokeToken st tok) jti tok = none
    ∧ authenticateJWT (some tok) secret (revokeToken st tok) now
        = (.notRecognized, [{ jti := tok.payload.jti, token := tok }])
    ∧ ((∀ r ∈ st, r.token ≠ tok) → revokeToken st tok = st)
    ∧ revokeToken (revokeToken st tok) tok = revokeToken st tok := by
  have habsent : ∀ jti' : String, getTokenRow (revokeToken st tok) jti' tok = none := by
    intro jti'
    unfold getTokenRow revokeToken
    rw [List.find?_eq_none]
    intro r hr hpr
    have hne : ¬((r.token == tok) = true) := by
      have := (List.mem_filter.mp hr).2
      simpa using this
    have : (r.token == tok) = true := by
      have := Bool.and_eq_true_iff.mp hpr
      exact this.2
    exact hne this
  refine ⟨habsent jti, ?_, ?_, ?_⟩
  · simp [authenticateJWT, hver, habsent tok.payload.jti]
  · intro hnone
    unfold revokeToken
    rw [List.filter_eq_self]
    intro r hr
    simpa using hnone r hr
  · unfold revokeToken
    rw [List.filter_eq_self]
    intro r hr
    have := (List.mem_filter.mp hr).2
    simpa using this

/-- Witness for C5 at a concrete one-row ledger and its issued token. -/
theorem revocation_immediate_witness :
    getTokenRow
        (revokeToken
          [{ id := "jti1", user_id := "u1",
             token := { payload := { sub := "u1", jti := "jti1", iat := 0, exp := 50 },
                        secret := "s" },
             expires_at := 50, issued_at := 0 }]
          { payload := { sub := "u1", jti := "jti1", iat := 0, exp := 50 },
            secret := "s" })
        "jti1"
        { payload := { sub := "u1", jti := "jti1", iat := 0, exp := 50 },
          secret := "s" }
      = none
    ∧ authenticateJWT
        (some { payload := { sub := "u1", jti := "jti1", iat := 0, exp := 50 },
                secret := "s" })
        "s"
        (revokeToken
          [{ id := "jti1", user_id := "u1",
             token := { payload := { sub := "u1", jti := "jti1", iat := 0, exp := 50 },
                        secret := "s" },
             expires_at := 50, issued_at := 0 }]
          { payload := { sub := "u1", jti := "jti1", iat := 0, exp := 50 },
            secret := "s" })
        10
      = (.notRecognized,
         [{ jti := "jti1",
            token := { payload := { sub := "u1", jti := "jti1", iat := 0, exp := 50 },
                       secret := "s" } }])
    ∧ ((∀ r ∈ ([{ id := "jti1", user_id := "u1",
                  token := { payload := { sub := "u1", jti := "jti1", iat := 0, exp := 50 },
                             secret := "s" },
                  expires_at := 50, issued_at := 0 }] : List TokenRow),
          r.token ≠ ({ payload := { sub := "u1", jti := "jti1", iat := 0, exp := 50 },
                       secret := "s" } : Token)) →
        revokeToken
          [{ id := "jti1", user_id := "u1",
             token := { payload := { sub := "u1", jti := "jti1", iat := 0, exp := 50 },
                        secret := "s" },
             expires_at := 50, issued_at := 0 }]
          { payload := { sub := "u1", jti := "jti1", iat := 0, exp := 50 },
            secret := "s" }
          = [{ id := "jti1", user_id := "u1",
               token := { payload := { sub := "u1", jti := "jti1", iat := 0, exp := 50 },
                          secret := "s" },
               expires_at := 50, issued_at := 0 }])
    ∧ revokeToken
        (revokeToken
          [{ id := "jti1", user_id := "u1",
             token := { payload := { sub := "u1", jti := "jti1", iat := 0, exp := 50 },
                        secret := "s" },
             expires_at := 50, issued_at := 0 }]
          { payload := { sub := "u1", jti := "jti1", iat := 0, exp := 50 },
            secret := "s" })
        { payload := { sub := "u1", jti := "jti1", iat := 0, exp := 50 },
          secret := "s" }
      = revokeToken
          [{ id := "jti1", user_id := "u1",
             token := { payload := { sub := "u1", jti := "jti1", iat := 0, exp := 50 },
                        secret := "s" },
             expires_at := 50, issued_at := 0 }]
          { payload := { sub := "u1", jti := "jti1", iat := 0, exp := 50 },
            secret := "s" } :=
  revocation_immediate
    [{ id := "jti1", user_id := "u1",
       token := { payload := { sub := "u1", jti := "jti1", iat := 0, exp := 50 },
                  secret := "s" },
       expires_at := 50, issued_at := 0 }]
    { payload := { sub := "u1", jti := "jti1", iat := 0, exp := 50 }, secret := "s" }
    "jti1" "s" 10 (by decide)

/-- A GET finding a live entry is served from the cache: compute does not
run and the cache is untouched. -/
theorem cachedRequest_hit {V : Type} (ttl : Nat) (c : CacheMap (Body V))
    (key : String) (now : Nat) (u : ComputeResult V)
    (entry : CacheEntry (Body V))
    (hc : mapGet c key = some entry) (hlive : now < entry.expires) :
    cachedRequest ttl c key now "GET" u
      = { cache := c, response := { status := 200, body := entry.value },
          computeInvoked := false } := by
  unfold cachedRequest
  rw [if_neg (by simp)]
  simp only [hc]
  rw [if_pos hlive]

/-- A GET missing the cache runs compute and stores the result with expiry
`now + ttl`. -/
theorem cachedRequest_miss_ok {V : Type} (ttl : Nat) (c : CacheMap (Body V))
    (key : String) (now : Nat) (v : V)
    (hc : mapGet c key = none) :
    cachedRequest ttl c key now "GET" (.ok v)
      = { cache := mapSet c key { expires := now + ttl, value := Body.data v },
          response := { status := 200, body := Body.data v },
          computeInvoked := true } := by
  unfold cachedRequest
  rw [if_neg (by simp)]
  simp only [hc]
  rw [if_pos trivial]

/-- A GET finding an expired entry evicts it, runs compute and stores the
fresh result with expiry `now + ttl`. -/
theorem cachedRequest_expired_ok {V : Type} (ttl : Nat) (c : CacheMap (Body V))
    (key : String) (now : Nat) (v : V) (entry : CacheEntry (Body V))
    (hc : mapGet c key = some entry) (hexp : ¬ now < entry.expires) :
    cachedRequest ttl c key now "GET" (.ok v)
      = { cache := mapSet (mapDelete c key) key
            { expires := now + ttl, value := Body.data v },
          response := { status := 200, body := Body.data v },
          computeInvoked := true } := by
  unfold cachedRequest
  rw [if_neg (by simp)]
  simp only [hc]
  rw [if_neg hexp, if_pos trivial]

/-- C6: a cache-filling GET at `t0` stores the computed value with expiry
`t0 + ttl`; any GET strictly before `t0 + ttl` is served the stored value
without invoking compute and leaves the cache untouched; any GET strictly
after `t0 + ttl` invokes compute again, is served the fresh value, and
stores it with expiry `now + ttl` in place of the stale entry. -/
theorem cache_freshness_boundary {V : Type} (ttl : Nat)
    (cache0 : CacheMap (Body V)) (key : String) (t0 t1 t2 : Nat) (v0 v1 : V)
    (u1 : ComputeResult V)
    (hmiss : mapGet cache0 key = none)
    (h1 : t1 < t0 + ttl) (h2 : t0 + ttl < t2) :
    (cachedRequest ttl cache0 key t0 "GET" (.ok v0)).computeInvoked = true
    ∧ mapGet (cachedRequest ttl cache0 key t0 "GET" (.ok v0)).cache key
        = some { expires := t0 + ttl, value := Body.data v0 }
    ∧ (cachedRequest ttl (cachedRequest ttl cache0 key t0 "GET" (.ok v0)).cache
        key t1 "GET" u1).computeInvoked = false
    ∧ (cachedRequest ttl (cachedRequest ttl cache0 key t0 "GET" (.ok v0)).cache
        key t1 "GET" u1).response
        = { status := 200, body := Body.data v0 }
    ∧ (cachedRequest ttl (cachedRequest ttl cache0 key t0 "GET" (.ok v0)).cache
        key t1 "GET" u1).cache
        = (cachedRequest ttl cache0 key t0 "GET" (.ok v0)).cache
    ∧ (cachedRequest ttl (cachedRequest ttl cache0 key t0 "GET" (.ok v0)).cache
        key t2 "GET" (.ok v1)).computeInvoked = true
    ∧ (cachedRequest ttl (cachedRequest ttl cache0 key t0 "GET" (.ok v0)).cache
        key t2 "GET" (.ok v1)).response
        = { status := 200, body := Body.data v1 }
    ∧ mapGet (cachedRequest ttl (cachedRequest ttl cache0 key t0 "GET" (.ok v0)).cache
        key t2 "GET" (.ok v1)).cache key
        = some { expires := t2 + ttl, value := Body.data v1 } := by
  have hfill := cachedRequest_miss_ok ttl cache0 key t0 v0 hmiss
  have hget : mapGet (cachedRequest ttl cache0 key t0 "GET" (.ok v0)).cache key
      = some { expires := t0 + ttl, value := Body.data v0 } := by
    rw [hfill]
    exact mapGet_mapSet_self cache0 key _
  have hhit := cachedRequest_hit ttl
    (cachedRequest ttl cache0 key t0 "GET" (.ok v0)).cache key t1 u1 _ hget h1
  have hrefill := cachedRequest_expired_ok ttl
    (cachedRequest ttl cache0 key t0 "GET" (.ok v0)).cache key t2 v1 _ hget
    (by simp only; omega)
  refine ⟨by rw [hfill], hget, by rw [hhit], by rw [hhit], by rw [hhit], by rw [hrefill],
    by rw [hrefill], ?_⟩
  rw [hrefill]
  exact mapGet_mapSet_self _ key _

/-- Witness for C6 with ttl 100, fill at 50, hit at 149, refill at 151. -/
theorem cache_freshness_boundary_witness :
    (cachedRequest (V := Nat) 100 [] "/k" 50 "GET" (.ok 7)).computeInvoked = true
    ∧ mapGet (cachedRequest (V := Nat) 100 [] "/k" 50 "GET" (.ok 7)).cache "/k"
        = some { expires := 150, value := Body.data 7 }
    ∧ (cachedRequest 100 (cachedRequest (V := Nat) 100 [] "/k" 50 "GET" (.ok 7)).cache
        "/k" 149 "GET" (.ok 8)).computeInvoked = false
    ∧ (cachedRequest 100 (cachedRequest (V := Nat) 100 [] "/k" 50 "GET" (.ok 7)).cache
        "/k" 149 "GET" (.ok 8)).response
        = { status := 200, body := Body.data 7 }
    ∧ (cachedRequest 100 (cachedRequest (V := Nat) 100 [] "/k" 50 "GET" (.ok 7)).cache
        "/k" 149 "GET" (.ok 8)).cache
        = (cachedRequest (V := Nat) 100 [] "/k" 50 "GET" (.ok 7)).cache
    ∧ (cachedRequest 100 (cachedRequest (V := Nat) 100 [] "/k" 50 "GET" (.ok 7)).cache
        "/k" 151 "GET" (.ok 9)).computeInvoked = true
    ∧ (cachedRequest 100 (cachedRequest (V := Nat) 100 [] "/k" 50 "GET" (.ok 7)).cache
        "/k" 151 "GET" (.ok 9)).response
        = { status := 200, body := Body.data 9 }
    ∧ mapGet (cachedRequest 100 (cachedRequest (V := Nat) 100 [] "/k" 50 "GET" (.ok 7)).cache
        "/k" 151 "GET" (.ok 9)).cache "/k"
        = some { expires := 251, value := Body.data 9 } :=
  cache_freshness_boundary 100 [] "/k" 50 149 151 7 9 (.ok 8)
    (by decide) (by decide) (by decide)

/-- Insert branch of the toggle: no prior row for the pair. -/
theorem likeOrDislikeEvent_insert (st : EventsDB) (e u : String) (r : Int)
    (newId : String) (now : Nat)
    (hc : st.events.contains e = true)
    (hf : findReaction st.event_likes e u = none) :
    likeOrDislikeEvent st e u r newId now =
      ({ st with event_likes := st.event_likes ++
           [{ id := newId, event_id := e, user_id := u,
              reaction := r, created_at := now }] },
       { eventExists := true, updated := false }) := by
  have hc' : e ∈ st.events := by simpa using hc
  simp [likeOrDislikeEvent, hc', hf]

/-- Update branch of the toggle: a prior row of the opposite polarity. -/
theorem likeOrDislikeEvent_update (st : EventsDB) (e u : String) (r : Int)
    (newId : String) (now : Nat) (ex : ReactionRow)
    (hc : st.events.contains e = true)
    (hf : findReaction st.event_likes e u = some ex)
    (hne : ex.reaction ≠ r) :
    likeOrDislikeEvent st e u r newId now =
      ({ st with event_likes := st.event_likes.map (fun row =>
           if row.id == ex.id then { row with reaction := r, created_at := now }
           else row) },
       { eventExists := true, updated := true }) := by
  have hc' : e ∈ st.events := by simpa using hc
  simp [likeOrDislikeEvent, hc', hf, hne]

/-- No-op branch of the toggle: a prior row of the same polarity. -/
theorem likeOrDislikeEvent_noop (st : EventsDB) (e u : String) (r : Int)
    (newId : String) (now : Nat) (ex : ReactionRow)
    (hc : st.events.contains e = true)
    (hf : findReaction st.event_likes e u = some ex)
    (heq : ex.reaction = r) :
    likeOrDislikeEvent st e u r newId now =
      (st, { eventExists := true, updated := false }) := by
  have hc' : e ∈ st.events := by simpa using hc
  simp [likeOrDislikeEvent, hc', hf, heq]

/-- The freshly appended row is what the pair lookup finds afterwards. -/
theorem findReaction_append_self (rows : List ReactionRow) (e u : String)
    (row : ReactionRow) (hf : findReaction rows e u = none)
    (he : row.event_id = e) (hu : row.user_id = u) :
    findReaction (rows ++ [row]) e u = some row := by
  unfold findReaction at hf ⊢
  rw [find?_append_of_none _ _ _ hf]
  rw [List.find?_cons_of_pos _ (by simp [he, hu])]

/-- A map that fixes every element of a list is the identity on it. -/
theorem map_eq_self_of_eq {α : Type} (f : α → α) :
    ∀ l : List α, (∀ a ∈ l, f a = a) → List.map f l = l
  | [], _ => rfl
  | a :: t, h => by
      rw [List.map_cons, h a (List.mem_cons_self a t),
          map_eq_self_of_eq f t (fun b hb => h b (List.mem_cons_of_mem a hb))]

/-- Counterexample for C7: with event "e1" existing and user "u" having no
prior reaction, but another user "v" already holding a like, toggling
like twice by "u" leaves aggregate counts {likes: 2, dislikes: 0}, not the
claimed {likes: 1, dislikes: 0}. -/
theorem toggle_idempotent_counts_cex :
    ({ events := ["e1"],
       event_likes := [{ id := "r0", event_id := "e1", user_id := "v",
                         reaction := 1, created_at := 0 }] } : EventsDB).events.contains "e1"
      = true
    ∧ findReaction
        ({ events := ["e1"],
           event_likes := [{ id := "r0", event_id := "e1", user_id := "v",
                             reaction := 1, created_at := 0 }] } : EventsDB).event_likes
        "e1" "u" = none
    ∧ (likeOrDislikeEvent
        { events := ["e1"],
          event_likes := [{ id := "r0", event_id := "e1", user_id := "v",
                            reaction := 1, created_at := 0 }] }
        "e1" "u" 1 "r1" 10).2
      = { eventExists := true, updated := false }
    ∧ (likeOrDislikeEvent
        (likeOrDislikeEvent
          { events := ["e1"],
            event_likes := [{ id := "r0", event_id := "e1", user_id := "v",
                              reaction := 1, created_at := 0 }] }
          "e1" "u" 1 "r1" 10).1
        "e1" "u" 1 "r2" 20).2
      = { eventExists := true, updated := false }
    ∧ getEventReactions
        (likeOrDislikeEvent
          (likeOrDislikeEvent
            { events := ["e1"],
              event_likes := [{ id := "r0", event_id := "e1", user_id := "v",
                                reaction := 1, created_at := 0 }] }
            "e1" "u" 1 "r1" 10).1
          "e1" "u" 1 "r2" 20).1
        "e1"
      ≠ { likes := 1, dislikes := 0 } := by
  refine ⟨by decide, by decide, by decide, by decide, by decide⟩

/-- C7 (amended): for every state where event e exists and user u has no
prior reaction on it, toggling like twice returns {eventExists: true,
updated: false} both times, the second call changes no state, and the
aggregate counts gain exactly one like over their prior values — in
particular exactly {likes: 1, dislikes: 0} when e had no reactions at
all. -/
theorem toggle_idempotent_amended (st : EventsDB) (e u id1 id2 : String)
    (t1 t2 : Nat)
    (he : st.events.contains e = true)
    (hu : findReaction st.event_likes e u = none) :
    (likeOrDislikeEvent st e u 1 id1 t1).2
      = { eventExists := true, updated := false }
    ∧ likeOrDislikeEvent (likeOrDislikeEvent st e u 1 id1 t1).1 e u 1 id2 t2
        = ((likeOrDislikeEvent st e u 1 id1 t1).1,
           { eventExists := true, updated := false })
    ∧ getEventReactions (likeOrDislikeEvent st e u 1 id1 t1).1 e
        = { likes := (getEventReactions st e).likes + 1,
            dislikes := (getEventReactions st e).dislikes } := by
  have h1 := likeOrDislikeEvent_insert st e u 1 id1 t1 he hu
  refine ⟨by rw [h1], ?_, ?_⟩
  · rw [h1]
    have hf2 : findReaction
        (st.event_likes ++ [{ id := id1, event_id := e, user_id := u,
                              reaction := 1, created_at := t1 }]) e u
        = some { id := id1, event_id := e, user_id := u,
                 reaction := 1, created_at := t1 } :=
      findReaction_append_self _ _ _ _ hu rfl rfl
    exact likeOrDislikeEvent_noop _ e u 1 id2 t2 _ he hf2 rfl
  · rw [h1]
    unfold getEventReactions
    simp [List.filter_append, List.countP_append]

/-- Witness for C7 (amended): fresh event, single user. -/
theorem toggle_idempotent_amended_witness :
    (likeOrDislikeEvent { events := ["e"], event_likes := [] } "e" "u" 1 "i1" 0).2
      = { eventExists := true, updated := false }
    ∧ likeOrDislikeEvent
        (likeOrDislikeEvent { events := ["e"], event_likes := [] } "e" "u" 1 "i1" 0).1
        "e" "u" 1 "i2" 1
      = ((likeOrDislikeEvent { events := ["e"], event_likes := [] } "e" "u" 1 "i1" 0).1,
         { eventExists := true, updated := false })
    ∧ getEventReactions
        (likeOrDislikeEvent { events := ["e"], event_likes := [] } "e" "u" 1 "i1" 0).1 "e"
      = { likes := (getEventReactions { events := ["e"], event_likes := [] } "e").likes + 1,
          dislikes := (getEventReactions { events := ["e"], event_likes := [] } "e").dislikes } :=
  toggle_idempotent_amended { events := ["e"], event_likes := [] } "e" "u" "i1" "i2" 0 1
    (by decide) (by decide)

/-- Counterexample for C8: with event "e1" existing and user "u" having no
prior reaction, but another user "v" already holding a like, like followed
by dislike from "u" leaves aggregate counts {likes: 1, dislikes: 1}, not
the claimed {likes: 0, dislikes: 1}. -/
theorem toggle_flip_counts_cex :
    ({ events := ["e1"],
       event_likes := [{ id := "r0", event_id := "e1", user_id := "v",
                         reaction := 1, created_at := 0 }] } : EventsDB).events.contains "e1"
      = true
    ∧ findReaction
        ({ events := ["e1"],
           event_likes := [{ id := "r0", event_id := "e1", user_id := "v",
                             reaction := 1, created_at := 0 }] } : EventsDB).event_likes
        "e1" "u" = none
    ∧ (likeOrDislikeEvent
        { events := ["e1"],
          event_likes := [{ id := "r0", event_id := "e1", user_id := "v",
                            reaction := 1, created_at := 0 }] }
        "e1" "u" 1 "r1" 10).2
      = { eventExists := true, updated := false }
    ∧ (likeOrDislikeEvent
        (likeOrDislikeEvent
          { events := ["e1"],
            event_likes := [{ id := "r0", event_id := "e1", user_id := "v",
                              reaction := 1, created_at := 0 }] }
          "e1" "u" 1 "r1" 10).1
        "e1" "u" (-1) "r2" 20).2
      = { eventExists := true, updated := true }
    ∧ getEventReactions
        (likeOrDislikeEvent
          (likeOrDislikeEvent
            { events := ["e1"],
              event_likes := [{ id := "r0", event_id := "e1", user_id := "v",
                                reaction := 1, created_at := 0 }] }
            "e1" "u" 1 "r1" 10).1
          "e1" "u" (-1) "r2" 20).1
        "e1"
      ≠ { likes := 0, dislikes := 1 } := by
  refine ⟨by decide, by decide, by decide, by decide, by decide⟩

/-- C8 (amended): for every state where event e exists, user u has no prior
reaction on it, and the fresh insert id does not collide with an existing
row id (as uuidv4 guarantees), like-then-dislike by u returns
{eventExists: true, updated: false} then {eventExists: true, updated: true},
adds no second row on the flip, and changes the aggregate counts by exactly
one dislike relative to their prior values: u's like is replaced, never
counted alongside the dislike — in particular exactly {likes: 0,
dislikes: 1} when e had no reactions at all. -/
theorem toggle_flip_amended (st : EventsDB) (e u id1 id2 : String)
    (t1 t2 : Nat)
    (he : st.events.contains e = true)
    (hu : findReaction st.event_likes e u = none)
    (hfresh : ∀ row ∈ st.event_likes, row.id ≠ id1) :
    (likeOrDislikeEvent st e u 1 id1 t1).2
      = { eventExists := true, updated := false }
    ∧ (likeOrDislikeEvent (likeOrDislikeEvent st e u 1 id1 t1).1 e u (-1) id2 t2).2
        = { eventExists := true, updated := true }
    ∧ (likeOrDislikeEvent (likeOrDislikeEvent st e u 1 id1 t1).1 e u (-1) id2 t2).1.event_likes.length
        = (likeOrDislikeEvent st e u 1 id1 t1).1.event_likes.length
    ∧ getEventReactions
        (likeOrDislikeEvent (likeOrDislikeEvent st e u 1 id1 t1).1 e u (-1) id2 t2).1 e
        = { likes := (getEventReactions st e).likes,
            dislikes := (getEventReactions st e).dislikes + 1 } := by
  have h1 := likeOrDislikeEvent_insert st e u 1 id1 t1 he hu
  have hf2 : findReaction
      (st.event_likes ++ [{ id := id1, event_id := e, user_id := u,
                            reaction := 1, created_at := t1 }]) e u
      = some { id := id1, event_id := e, user_id := u,
               reaction := 1, created_at := t1 } :=
    findReaction_append_self _ _ _ _ hu rfl rfl
  have hne1 : ({ id := id1, event_id := e, user_id := u, reaction := 1,
                 created_at := t1 } : ReactionRow).reaction ≠ (-1 : Int) := by
    simp
  have h2s : likeOrDislikeEvent
      ({ st with event_likes := st.event_likes ++
          [{ id := id1, event_id := e, user_id := u, reaction := 1,
             created_at := t1 }] })
      e u (-1) id2 t2
      = ({ st with event_likes := st.event_likes ++
            [{ id := id1, event_id := e, user_id := u, reaction := -1,
               created_at := t2 }] },
         { eventExists := true, updated := true }) := by
    rw [likeOrDislikeEvent_update
      ({ st with event_likes := st.event_likes ++
          [{ id := id1, event_id := e, user_id := u, reaction := 1,
             created_at := t1 }] })
      e u (-1) id2 t2
      { id := id1, event_id := e, user_id := u, reaction := 1, created_at := t1 }
      he hf2 hne1]
    have hmapself : List.map
        (fun row => if row.id ==
            ({ id := id1, event_id := e, user_id := u, reaction := 1,
               created_at := t1 } : ReactionRow).id then
            { row with reaction := (-1 : Int), created_at := t2 }
          else row) st.event_likes = st.event_likes :=
      map_eq_self_of_eq _ st.event_likes
        (fun row hrow => by simp [hfresh row hrow])
    congr 1
    rw [List.map_append, hmapself]
    simp
  have h2' : likeOrDislikeEvent (likeOrDislikeEvent st e u 1 id1 t1).1 e u (-1) id2 t2
      = ({ st with event_likes := st.event_likes ++
            [{ id := id1, event_id := e, user_id := u, reaction := -1,
               created_at := t2 }] },
         { eventExists := true, updated := true }) := by
    rw [h1]
    exact h2s
  refine ⟨by rw [h1], by rw [h2'], ?_, ?_⟩
  · rw [h2', h1]
    simp
  · rw [h2']
    unfold getEventReactions
    simp [List.filter_append, List.countP_append]

/-- Witness for C8 (amended): fresh event, single user, fresh uuid. -/
theorem toggle_flip_amended_witness :
    (likeOrDislikeEvent { events := ["e"], event_likes := [] } "e" "u" 1 "i1" 0).2
      = { eventExists := true, updated := false }
    ∧ (likeOrDislikeEvent
        (likeOrDislikeEvent { events := ["e"], event_likes := [] } "e" "u" 1 "i1" 0).1
        "e" "u" (-1) "i2" 1).2
      = { eventExists := true, updated := true }
    ∧ (likeOrDislikeEvent
        (likeOrDislikeEvent { events := ["e"], event_likes := [] } "e" "u" 1 "i1" 0).1
        "e" "u" (-1) "i2" 1).1.event_likes.length
      = (likeOrDislikeEvent { events := ["e"], event_likes := [] } "e" "u" 1 "i1" 0).1.event_likes.length
    ∧ getEventReactions
        (likeOrDislikeEvent
          (likeOrDislikeEvent { events := ["e"], event_likes := [] } "e" "u" 1 "i1" 0).1
          "e" "u" (-1) "i2" 1).1 "e"
      = { likes := (getEventReactions { events := ["e"], event_likes := [] } "e").likes,
          dislikes := (getEventReactions { events := ["e"], event_likes := [] } "e").dislikes + 1 } :=
  toggle_flip_amended { events := ["e"], event_likes := [] } "e" "u" "i1" "i2" 0 1
    (by decide) (by decide) (by intro row hrow; simp at hrow)

/-- C9: the authenticator consults the token ledger only after `jwt.verify`
has succeeded: when verification fails the attempt terminates as
invalidSignatureOrExpired with an empty list of store reads, and any
performed store read entails that verification succeeded. -/
theorem verify_before_ledger (tok : Token) (secret : String)
    (st : List TokenRow) (now : Nat) :
    (jwtVerify tok secret now = none →
      authenticateJWT (some tok) secret st now = (.invalidSignatureOrExpired, []))
    ∧ ((authenticateJWT (some tok) secret st now).2 ≠ [] →
        jwtVerify tok secret now = some tok.payload) := by
  constructor
  · intro h
    simp [authenticateJWT, h]
  · intro h
    cases hver : jwtVerify tok secret now with
    | none => simp [authenticateJWT, hver] at h
    | some p =>
        have hp : p = tok.payload := by
          unfold jwtVerify at hver
          by_cases hcond : tok.secret = secret ∧ now < tok.payload.exp
          · rw [if_pos hcond] at hver
            exact (Option.some.injEq _ _ ▸ hver).symm
          · rw [if_neg hcond] at hver
            exact absurd hver (by simp)
        exact congrArg some hp

/-- Witness for C9: a wrong-secret token is rejected with no store read. -/
theorem verify_before_ledger_witness :
    jwtVerify { payload := { sub := "u1", jti := "j", iat := 0, exp := 99 },
                secret := "other" } "s" 10 = none
    ∧ authenticateJWT
        (some { payload := { sub := "u1", jti := "j", iat := 0, exp := 99 },
                secret := "other" }) "s" [] 10
      = (.invalidSignatureOrExpired, []) :=
  ⟨by decide,
   (verify_before_ledger
      { payload := { sub := "u1", jti := "j", iat := 0, exp := 99 },
        secret := "other" } "s" [] 10).1 (by decide)⟩

/-- C10: `revoke(token)` deletes exactly the rows whose stored token equals
the presented one, and authentication with any other credential is entirely
unaffected by the revocation — in particular other concurrent sessions of
the same user remain valid. -/
theorem revoke_frame (st : List TokenRow) (tok : Token) :
    (∀ r : TokenRow, r ∈ revokeToken st tok ↔ (r ∈ st ∧ r.token ≠ tok))
    ∧ (∀ tik : Token, tik ≠ tok → ∀ (secret : String) (now : Nat),
        authenticateJWT (some tik) secret (revokeToken st tok) now
          = authenticateJWT (some tik) secret st now) := by
  constructor
  · intro r
    unfold revokeToken
    rw [List.mem_filter]
    constructor
    · rintro ⟨hm, hcond⟩
      exact ⟨hm, by simpa using hcond⟩
    · rintro ⟨hm, hne⟩
      exact ⟨hm, by simpa using hne⟩
  · intro tik hne secret now
    have hrow : ∀ p : Payload, getTokenRow (revokeToken st tok) p.jti tik
        = getTokenRow st p.jti tik := by
      intro p
      unfold getTokenRow revokeToken
      exact find?_filter_of_imp _ _
        (fun r hr => by
          have : r.token = tik := by
            have := Bool.and_eq_true_iff.mp hr
            simpa using this.2
          simp [this, hne])
        st
    unfold authenticateJWT
    cases hver : jwtVerify tik secret now with
    | none => simp only [hver]
    | some p => simp only [hver, hrow p]

/-- Witness for C10: revoking one of two sessions of the same user leaves
the other session present and authenticating. -/
theorem revoke_frame_witness :
    (({ id := "j2", user_id := "u1",
        token := { payload := { sub := "u1", jti := "j2", iat := 0, exp := 99 },
                   secret := "s" },
        expires_at := 99, issued_at := 0 } : TokenRow) ∈
      revokeToken
        [{ id := "j1", user_id := "u1",
           token := { payload := { sub := "u1", jti := "j1", iat := 0, exp := 99 },
                      secret := "s" },
           expires_at := 99, issued_at := 0 },
         { id := "j2", user_id := "u1",
           token := { payload := { sub := "u1", jti := "j2", iat := 0, exp := 99 },
                      secret := "s" },
           expires_at := 99, issued_at := 0 }]
        { payload := { sub := "u1", jti := "j1", iat := 0, exp := 99 },
          secret := "s" }
      ↔ (({ id := "j2", user_id := "u1",
            token := { payload := { sub := "u1", jti := "j2", iat := 0, exp := 99 },
                       secret := "s" },
            expires_at := 99, issued_at := 0 } : TokenRow) ∈
          [{ id := "j1", user_id := "u1",
             token := { payload := { sub := "u1", jti := "j1", iat := 0, exp := 99 },
                        secret := "s" },
             expires_at := 99, issued_at := 0 },
           { id := "j2", user_id := "u1",
             token := { payload := { sub := "u1", jti := "j2", iat := 0, exp := 99 },
                        secret := "s" },
             expires_at := 99, issued_at := 0 }]
          ∧ ({ id := "j2", user_id := "u1",
               token := { payload := { sub := "u1", jti := "j2", iat := 0, exp := 99 },
                          secret := "s" },
               expires_at := 99, issued_at := 0 } : TokenRow).token
            ≠ { payload := { sub := "u1", jti := "j1", iat := 0, exp := 99 },
                secret := "s" }))
    ∧ authenticateJWT
        (some { payload := { sub := "u1", jti := "j2", iat := 0, exp := 99 },
                secret := "s" }) "s"
        (revokeToken
          [{ id := "j1", user_id := "u1",
             token := { payload := { sub := "u1", jti := "j1", iat := 0, exp := 99 },
                        secret := "s" },
             expires_at := 99, issued_at := 0 },
           { id := "j2", user_id := "u1",
             token := { payload := { sub := "u1", jti := "j2", iat := 0, exp := 99 },
                        secret := "s" },
             expires_at := 99, issued_at := 0 }]
          { payload := { sub := "u1", jti := "j1", iat := 0, exp := 99 },
            secret := "s" })
        10
      = authenticateJWT
          (some { payload := { sub := "u1", jti := "j2", iat := 0, exp := 99 },
                  secret := "s" }) "s"
          [{ id := "j1", user_id := "u1",
             token := { payload := { sub := "u1", jti := "j1", iat := 0, exp := 99 },
                        secret := "s" },
             expires_at := 99, issued_at := 0 },
           { id := "j2", user_id := "u1",
             token := { payload := { sub := "u1", jti := "j2", iat := 0, exp := 99 },
                        secret := "s" },
             expires_at := 99, issued_at := 0 }]
          10 :=
  ⟨(revoke_frame
      [{ id := "j1", user_id := "u1",
         token := { payload := { sub := "u1", jti := "j1", iat := 0, exp := 99 },
                    secret := "s" },
         expires_at := 99, issued_at := 0 },
       { id := "j2", user_id := "u1",
         token := { payload := { sub := "u1", jti := "j2", iat := 0, exp := 99 },
                    secret := "s" },
         expires_at := 99, issued_at := 0 }]
      { payload := { sub := "u1", jti := "j1", iat := 0, exp := 99 },
        secret := "s" }).1
     { id := "j2", user_id := "u1",
       token := { payload := { sub := "u1", jti := "j2", iat := 0, exp := 99 },
                  secret := "s" },
       expires_at := 99, issued_at := 0 },
   (revoke_frame
      [{ id := "j1", user_id := "u1",
         token := { payload := { sub := "u1", jti := "j1", iat := 0, exp := 99 },
                    secret := "s" },
         expires_at := 99, issued_at := 0 },
       { id := "j2", user_id := "u1",
         token := { payload := { sub := "u1", jti := "j2", iat := 0, exp := 99 },
                    secret := "s" },
         expires_at := 99, issued_at := 0 }]
      { payload := { sub := "u1", jti := "j1", iat := 0, exp := 99 },
        secret := "s" }).2
     { payload := { sub := "u1", jti := "j2", iat := 0, exp := 99 }, secret := "s" }
     (by decide) "s" 10⟩

end Tweety
